import Mathlib

/-!
Verification development for the environment-resolution service
(`src/vs/platform/environment/node/environmentService.ts`).

The TypeScript source is shallowly embedded as executable Lean definitions.
Conventions used throughout:

* Optional JS string values (`string | undefined`) are `Option String`.
  JS truthiness of such a value (`if (x)`, `x || y`, `!!x`) is `strTruthy`:
  a string is truthy iff it is non-empty; `undefined` is falsy.  The spec's
  "present" / "set" / "absent" vocabulary is read accordingly (a variable
  set to the empty string behaves as absent, as in the source's `||` tests
  and as the XDG base-directory convention prescribes).
* `Number(s)` is modelled by `jsNumber` over the ToNumber string grammar:
  whitespace trimming (the ASCII set plus NBSP and the BOM; further
  Unicode space separators are outside the model), the empty string as
  `0`, optionally signed decimal numerals with fractional part and
  exponent, `Infinity`, and unsigned hex/octal/binary integer literals;
  every other string, and `undefined`, is NaN (`none`).  A finite result
  is kept exactly as a `mantissa / 10 ^ k` pair (`JSNum.num`); IEEE
  rounding to double never changes JS truthiness except at extreme
  exponents (underflow to `0`), which no claim involves and the model
  does not assert anything about.
* Node's `path` module is modelled by its POSIX implementation
  (`pathNormalize`, `pathResolve1`, `pathResolve2`, `pathJoin`); the
  win32 variant differs only in separator handling, on which no claim
  depends.  The Windows IPC branch of the source uses plain string
  concatenation, which is modelled exactly.
* String primitives are implemented over `String.data` character lists so
  that every definition evaluates by kernel reduction.
* External collaborators that the spec places out of scope (product and
  package metadata, the crypto hash, the uuid generator, the platform
  default user-data root) are parameters of the model.
-/

/-! ## String primitives over character lists -/

/-- Rebuild a string from a character list. -/
def strOfChars (cs : List Char) : String := ⟨cs⟩

/-- Emptiness test on the character list (JS `s === ""`). -/
def strIsEmpty (s : String) : Bool := s.data.isEmpty

/-- Leading-slash test (Node-internal `isPosixPathSeparator(code 0)`). -/
def startsWithSlash (s : String) : Bool :=
  match s.data with
  | '/' :: _ => true
  | _ => false

/-- Trailing-slash test. -/
def endsWithSlash (s : String) : Bool :=
  match s.data.getLast? with
  | some '/' => true
  | _ => false

/-- Kernel-reducible `/`-interposed concatenation. -/
def intercalateSlash : List String → String
  | [] => ""
  | [s] => s
  | s :: rest => s ++ "/" ++ intercalateSlash rest

/-- Split a character list at `/` separators. -/
def splitOnSlashGo : List Char → List Char → List String
  | [], cur => [strOfChars cur.reverse]
  | '/' :: rest, cur => strOfChars cur.reverse :: splitOnSlashGo rest []
  | c :: rest, cur => splitOnSlashGo rest (c :: cur)

/-- First `n` characters of a string (JS `substr(0, n)`). -/
def strTake (s : String) (n : Nat) : String := strOfChars (s.data.take n)

/-- Numeric value of a decimal digit character (char-code arithmetic,
as JS numeric parsing does). -/
def digitVal (c : Char) : Option Nat :=
  if '0' ≤ c ∧ c ≤ '9' then some (c.toNat - Char.toNat '0') else none

/-- Value of a guaranteed-digit run. -/
def digitsToNat (ds : List Char) : Nat :=
  ds.foldl (fun a c => a * 10 + ((digitVal c).getD 0)) 0

/-- Numeric value of a hexadecimal digit character. -/
def hexDigitVal (c : Char) : Option Nat :=
  match digitVal c with
  | some d => some d
  | none =>
    if 'a' ≤ c ∧ c ≤ 'f' then some (10 + (c.toNat - Char.toNat 'a'))
    else if 'A' ≤ c ∧ c ≤ 'F' then some (10 + (c.toNat - Char.toNat 'A'))
    else none

/-- Numeric value of an octal digit character. -/
def octDigitVal (c : Char) : Option Nat :=
  match digitVal c with
  | some d => if d ≤ 7 then some d else none
  | none => none

/-- Numeric value of a binary digit character. -/
def binDigitVal (c : Char) : Option Nat :=
  match digitVal c with
  | some d => if d ≤ 1 then some d else none
  | none => none

/-- Accumulating radix parse of a digit run. -/
def radixGo (b : Nat) (valOf : Char → Option Nat) : List Char → Nat → Option Nat
  | [], acc => some acc
  | c :: rest, acc =>
    match valOf c with
    | some d => radixGo b valOf rest (acc * b + d)
    | none => none

/-- Parse a non-empty digit run in radix `b`, consuming everything. -/
def parseRadix (b : Nat) (valOf : Char → Option Nat) : List Char → Option Nat
  | [] => none
  | cs => radixGo b valOf cs 0

/-- JS StrWhiteSpace trimmed by ToNumber: tab, LF, VT, FF, CR, space,
NBSP and the BOM (further Unicode space separators are outside the
model; no claim involves them). -/
def isJsSpace (c : Char) : Bool :=
  c.toNat == 9 || c.toNat == 10 || c.toNat == 11 || c.toNat == 12 || c.toNat == 13
    || c.toNat == 32 || c.toNat == 160 || c.toNat == 65279

/-- Trim JS whitespace from both ends. -/
def trimJs (cs : List Char) : List Char :=
  ((cs.dropWhile isJsSpace).reverse.dropWhile isJsSpace).reverse

/-- A non-NaN JS number as produced by `Number` on a string: a finite
value kept exactly as `mantissa / 10 ^ k` (deliberately unnormalized so
that every operation evaluates by kernel reduction), or a signed
infinity.  NaN is the `none` of the surrounding `Option`. -/
inductive JSNum where
  | num : Int → Nat → JSNum
  | inf : Bool → JSNum
deriving Repr, DecidableEq

/-- Rational value of a finite `JSNum.num i k`, used in statements. -/
def jsFiniteVal (i : Int) (k : Nat) : ℚ := (i : ℚ) / 10 ^ k

/-- Decimal significand: digits with an optional fractional part, at
least one digit in total; returns the combined digits' value, the
fraction length, and the unconsumed remainder. -/
def parseDecMantissa (cs : List Char) : Option (Nat × Nat × List Char) :=
  let p := cs.span (fun c => (digitVal c).isSome)
  match p.2 with
  | '.' :: r2 =>
    let q := r2.span (fun c => (digitVal c).isSome)
    if p.1.isEmpty && q.1.isEmpty then none
    else some (digitsToNat (p.1 ++ q.1), q.1.length, q.2)
  | _ => if p.1.isEmpty then none else some (digitsToNat p.1, 0, p.2)

/-- Optional exponent part, which must consume the whole remainder. -/
def parseExp : List Char → Option Int
  | [] => some 0
  | c :: rest =>
    if c = 'e' ∨ c = 'E' then
      match rest with
      | '+' :: r2 => (parseRadix 10 digitVal r2).map (fun n => (n : Int))
      | '-' :: r2 => (parseRadix 10 digitVal r2).map (fun n => -(n : Int))
      | r2 => (parseRadix 10 digitVal r2).map (fun n => (n : Int))
    else none

/-- Exact value of a signed decimal numeral with mantissa `m`, fraction
length `k` and exponent `e`, as a `JSNum`. -/
def decValue (neg : Bool) (m k : Nat) (e : Int) : JSNum :=
  let d : Int := e - (k : Int)
  let i : Int := if neg then -(m : Int) else (m : Int)
  if 0 ≤ d then JSNum.num (i * 10 ^ d.toNat) 0 else JSNum.num i (-d).toNat

/-- Optionally signed decimal numeral or `Infinity`. -/
def parseSignedDec (cs : List Char) : Option JSNum :=
  let sp : Bool × List Char :=
    match cs with
    | '-' :: r => (true, r)
    | '+' :: r => (false, r)
    | r => (false, r)
  if sp.2 = ['I', 'n', 'f', 'i', 'n', 'i', 't', 'y'] then some (JSNum.inf sp.1)
  else
    match parseDecMantissa sp.2 with
    | none => none
    | some (m, k, rest) =>
      match parseExp rest with
      | none => none
      | some e => some (decValue sp.1 m k e)

/-- JS ToNumber on a string, over characters: trim whitespace; the
empty remainder is `0`; `0x`/`0o`/`0b` literals (sign not allowed, as
in JS) parse in their radix; everything else is an optionally signed
decimal numeral or `Infinity`, and otherwise NaN. -/
def jsNumOfChars (cs0 : List Char) : Option JSNum :=
  match trimJs cs0 with
  | [] => some (JSNum.num 0 0)
  | '0' :: x :: rest =>
    if x = 'x' ∨ x = 'X' then
      (parseRadix 16 hexDigitVal rest).map (fun n => JSNum.num (n : Int) 0)
    else if x = 'o' ∨ x = 'O' then
      (parseRadix 8 octDigitVal rest).map (fun n => JSNum.num (n : Int) 0)
    else if x = 'b' ∨ x = 'B' then
      (parseRadix 2 binDigitVal rest).map (fun n => JSNum.num (n : Int) 0)
    else parseSignedDec ('0' :: x :: rest)
  | cs => parseSignedDec cs

/-! ## JS value conventions -/

/-- Truthiness of a JS `string | undefined` value: `undefined` and the
empty string are falsy, every other string is truthy. -/
def strTruthy : Option String → Bool
  | none => false
  | some s => !(strIsEmpty s)

/-- JS `a || b` on a `string | undefined` with a plain-string fallback:
returns `a`'s value when it is truthy, else `b`. -/
def jsOrStr (a : Option String) (b : String) : String :=
  match a with
  | none => b
  | some s => if strIsEmpty s then b else s

/-- JS `Number(x)` on a `string | undefined`, restricted to signed
decimal integer numerals: `undefined` gives NaN (`none`), the empty
string gives `0`, a decimal integer numeral gives its value, and every
other string is treated as NaN.  (True JS `Number` also accepts floats,
hex and padding whitespace; none of the claims involve such inputs.) -/
def jsNumber : Option String → Option JSNum
  | none => none
  | some s => jsNumOfChars s.data

/-- Truthiness of a JS `number | null` value: `null`, NaN and `±0` are
falsy, every other number (infinities included) is truthy.  `none`
stands for both `null` and NaN, which are uniformly falsy. -/
def numTruthy : Option JSNum → Bool
  | none => false
  | some (JSNum.num i _) => i != 0
  | some (JSNum.inf _) => true

/-! ## Node `path` (POSIX implementation) -/

/-- Non-empty `/`-separated components of a path string. -/
def splitPath (s : String) : List String :=
  (splitOnSlashGo s.data []).filter (fun p => !(strIsEmpty p))

/-- Core of Node's `normalizeString`: resolves `.` and `..` components.
`allowAboveRoot` is true for relative paths, where leading `..`
components are kept.  The accumulator holds the already-processed
components in reverse order. -/
def normParts (allowAboveRoot : Bool) : List String → List String → List String
  | acc, [] => acc.reverse
  | acc, part :: rest =>
    if part = "." then normParts allowAboveRoot acc rest
    else if part = ".." then
      match acc with
      | [] =>
        if allowAboveRoot then normParts allowAboveRoot [".."] rest
        else normParts allowAboveRoot [] rest
      | q :: acc2 =>
        if q = ".." then normParts allowAboveRoot (".." :: acc) rest
        else normParts allowAboveRoot acc2 rest
    else normParts allowAboveRoot (part :: acc) rest

/-- Node `path.posix.normalize`. -/
def pathNormalize (p : String) : String :=
  if strIsEmpty p then "."
  else
    let isAbs := startsWithSlash p
    let trailing := endsWithSlash p
    let body := intercalateSlash (normParts (!isAbs) [] (splitPath p))
    if isAbs then
      if strIsEmpty body then "/"
      else if trailing then "/" ++ body ++ "/" else "/" ++ body
    else
      if strIsEmpty body then (if trailing then "./" else ".")
      else if trailing then body ++ "/" else body

/-- Final step of Node `path.posix.resolve`: normalize the combined
string, never keeping a trailing separator. -/
def resolveCombined (combined : String) : String :=
  let isAbs := startsWithSlash combined
  let body := intercalateSlash (normParts (!isAbs) [] (splitPath combined))
  if isAbs then "/" ++ body
  else if strIsEmpty body then "." else body

/-- Node `path.resolve(arg)` with current working directory `cwd`. -/
def pathResolve1 (cwd arg : String) : String :=
  resolveCombined (if startsWithSlash arg then arg else cwd ++ "/" ++ arg)

/-- Node `path.resolve(base, arg)` with current working directory `cwd`:
an absolute `arg` wins, else `arg` is stacked on `base`, which is itself
resolved against `cwd` when relative. -/
def pathResolve2 (cwd base arg : String) : String :=
  if startsWithSlash arg then resolveCombined arg
  else pathResolve1 cwd (base ++ "/" ++ arg)

/-- Node `path.join(...parts)`: empty segments are dropped, the rest are
concatenated with `/` and normalized; no segments at all give `"."`. -/
def pathJoin (parts : List String) : String :=
  let joined := intercalateSlash (parts.filter (fun s => !(strIsEmpty s)))
  if strIsEmpty joined then "." else pathNormalize joined

/-! ## Data model -/

/-- Result record of `parseDebugPort` (`IExtensionHostDebugParams` in the
source): an effective port (`null`/absent modelled as `none`), the
break-on-start flag (`break` in the source), and a pass-through debug
session id. -/
structure IExtensionHostDebugParams where
  port : Option JSNum
  brk : Bool
  debugId : Option String
deriving Repr, DecidableEq

/-- Relevant keys of the parsed command-line arguments (`ParsedArgs`).
String options are `Option String` (absent = `none`). -/
structure ParsedArgs where
  userDataDir : Option String := none
  extensionsDir : Option String := none
  extensionDevelopmentPath : Option String := none
  extensionTestsPath : Option String := none
  debugPluginHost : Option String := none
  debugBrkPluginHost : Option String := none
  debugId : Option String := none
  debugSearch : Option String := none
  debugBrkSearch : Option String := none
  disableExtensions : Bool := false
  skipGettingStarted : Bool := false
  verbose : Bool := false
  wait : Bool := false
  logExtensionHostCommunication : Bool := false
  performance : Bool := false
  profStartup : Bool := false

/-- Snapshot of the ambient Node process facts consumed by the service:
platform identifier, current working directory, environment variables
(an association list, absent key = unset variable) and `os.homedir()`. -/
structure NodeProcess where
  platform : String
  cwd : String
  env : List (String × String)
  homedir : String

/-- Environment-variable lookup, `process.env[k]`. -/
def envStr (proc : NodeProcess) (k : String) : Option String :=
  (proc.env.find? (fun kv => decide (kv.1 = k))).map (fun kv => kv.2)

/-- Static package metadata (`pkg` import, external collaborator). -/
structure Pkg where
  name : String
  version : String

/-- Static product metadata (`product` import, external collaborator). -/
structure Product where
  nameLong : String
  quality : String
  applicationName : String
  commit : String
  dataFolderName : String

/-! ## Debug-port negotiation -/

/-- Shallow embedding of `parseDebugPort`: the break-specific argument is
preferred as effective port source by JS `||` (truthiness), the parsed
number falls back to the default port outside build mode (`Number(x) ||
(!isBuild ? defaultBuildPort : null)`), and the break flag holds exactly
when the resulting port is truthy and the break argument is truthy. -/
def parseDebugPort (debugArg debugBrkArg : Option String) (defaultBuildPort : Int)
    (isBuild : Bool) (debugId : Option String) : IExtensionHostDebugParams :=
  let portStr := if strTruthy debugBrkArg then debugBrkArg else debugArg
  let n := jsNumber portStr
  let port :=
    if numTruthy n then n else if isBuild then none else some (JSNum.num defaultBuildPort 0)
  let brk := if numTruthy port then strTruthy debugBrkArg else false
  ⟨port, brk, debugId⟩

/-- Shallow embedding of `parseExtensionHostPort`. -/
def parseExtensionHostPort (args : ParsedArgs) (isBuild : Bool) : IExtensionHostDebugParams :=
  parseDebugPort args.debugPluginHost args.debugBrkPluginHost 5870 isBuild args.debugId

/-- Shallow embedding of `parseSearchPort`. -/
def parseSearchPort (args : ParsedArgs) (isBuild : Bool) : IExtensionHostDebugParams :=
  parseDebugPort args.debugSearch args.debugBrkSearch 5876 isBuild none

example : jsNumber (some "5000") = some (JSNum.num 5000 0) := by decide
example : jsNumber (some "50.5") = some (JSNum.num 505 1) := by decide
example : jsNumber (some " 42 ") = some (JSNum.num 42 0) := by decide
example : jsNumber (some "1e3") = some (JSNum.num 1000 0) := by decide
example : jsNumber (some "-2.5e-1") = some (JSNum.num (-25) 2) := by decide
example : jsNumber (some "0x10") = some (JSNum.num 16 0) := by decide
example : jsNumber (some "-0x10") = none := by decide
example : jsNumber (some "Infinity") = some (JSNum.inf false) := by decide
example : jsNumber (some "-Infinity") = some (JSNum.inf true) := by decide
example : jsNumber (some "") = some (JSNum.num 0 0) := by decide
example : jsNumber (some "x") = none := by decide
example : jsNumber none = none := by decide
example : parseDebugPort (some "5000") none 9229 false none
    = ⟨some (JSNum.num 5000 0), false, none⟩ := by decide
example : parseDebugPort none (some "5000") 9229 false none
    = ⟨some (JSNum.num 5000 0), true, none⟩ := by decide
example : parseDebugPort none none 9229 false none
    = ⟨some (JSNum.num 9229 0), false, none⟩ := by decide
example : parseDebugPort none none 9229 true none = ⟨none, false, none⟩ := by decide
example : parseDebugPort (some "5000") (some "") 9229 false none
    = ⟨some (JSNum.num 5000 0), false, none⟩ := by decide
example : parseDebugPort none (some "0") 9229 true none = ⟨none, false, none⟩ := by decide
example : pathNormalize "/a/../b/" = "/b/" := by decide
example : pathNormalize "" = "." := by decide
example : pathResolve1 "/cwd" "x" = "/cwd/x" := by decide
example : pathResolve1 "/cwd" "" = "/cwd" := by decide
example : pathResolve2 "/cwd" "/base" "x" = "/base/x" := by decide
example : pathResolve2 "/cwd" "rel" "x" = "/cwd/rel/x" := by decide
example : pathJoin ["/data", "User"] = "/data/User" := by decide
example : pathJoin ["/home/a", ".vscode-oss", "extensions"] = "/home/a/.vscode-oss/extensions" := by decide

/-! ## Path-argument and user-data-dir resolution -/

/-- Shallow embedding of `parsePathArg`: a falsy argument (absent or
empty) yields `undefined`; an argument whose normalization equals its
resolution against the current working directory is returned resolved;
otherwise the argument is resolved against the `VSCODE_CWD` override
when that variable is truthy, else against the plain working directory.
Total by construction, as the source is. -/
def parsePathArg (arg : Option String) (proc : NodeProcess) : Option String :=
  match arg with
  | none => none
  | some a =>
    if strIsEmpty a then none
    else
      let resolved := pathResolve1 proc.cwd a
      if pathNormalize a = resolved then some resolved
      else some (pathResolve2 proc.cwd (jsOrStr (envStr proc "VSCODE_CWD") proc.cwd) a)

/-- Shallow embedding of `parseUserDataDir`: the resolved `user-data-dir`
argument when truthy, else `path.resolve` of the platform default
user-data root.  `getDefaultUserDataPath` stands for the external
collaborator `paths.getDefaultUserDataPath` (vs/base/node/paths). -/
def parseUserDataDir (args : ParsedArgs) (proc : NodeProcess)
    (getDefaultUserDataPath : String → String) : String :=
  jsOrStr (parsePathArg args.userDataDir proc)
    (pathResolve1 proc.cwd (getDefaultUserDataPath proc.platform))

/-! ## IPC handle naming -/

/-- Shallow embedding of `getUniqueUserId`: the username environment
variable (`USERNAME` on win32, `USER` elsewhere) is hashed with the
external crypto digest `sha256hex` (sha256, hex-encoded) and truncated
to 6 characters; a falsy username gives the empty string. -/
def getUniqueUserId (sha256hex : String → String) (proc : NodeProcess) : String :=
  let username :=
    if proc.platform = "win32" then envStr proc "USERNAME" else envStr proc "USER"
  match username with
  | none => ""
  | some u => if strIsEmpty u then "" else strTake (sha256hex u) 6

/-- Shallow embedding of `getNixIPCHandle`: a truthy `XDG_RUNTIME_DIR`
hosts `{name}-{version}-{type}.sock`, else the user data directory
hosts `{version}-{type}.sock`. -/
def getNixIPCHandle (pkg : Pkg) (proc : NodeProcess) (userDataPath type : String) : String :=
  match envStr proc "XDG_RUNTIME_DIR" with
  | some x =>
    if strIsEmpty x then pathJoin [userDataPath, pkg.version ++ "-" ++ type ++ ".sock"]
    else pathJoin [x, pkg.name ++ "-" ++ pkg.version ++ "-" ++ type ++ ".sock"]
  | none => pathJoin [userDataPath, pkg.version ++ "-" ++ type ++ ".sock"]

/-- Shallow embedding of `getWin32IPCHandle`: the named-pipe path with
the user-id segment present exactly when `getUniqueUserId` is truthy. -/
def getWin32IPCHandle (sha256hex : String → String) (pkg : Pkg) (product : Product)
    (proc : NodeProcess) (type : String) : String :=
  let userId := getUniqueUserId sha256hex proc
  let name := product.applicationName ++ (if strIsEmpty userId then "" else "-" ++ userId)
  "\\\\.\\pipe\\" ++ name ++ "-" ++ pkg.version ++ "-" ++ type ++ "-sock"

/-! ## The service -/

/-- Constructor-time inputs of `EnvironmentService`, with the external
collaborators (package/product metadata, the platform default user-data
root and the crypto hash) as explicit fields. -/
structure SvcEnv where
  args : ParsedArgs
  proc : NodeProcess
  pkg : Pkg
  product : Product
  getDefaultUserDataPath : String → String
  sha256hex : String → String

/-- The `userDataPath` getter. -/
def userDataPath (e : SvcEnv) : String :=
  parseUserDataDir e.args e.proc e.getDefaultUserDataPath

/-- The `userHome` getter (`os.homedir()`). -/
def userHome (e : SvcEnv) : String := e.proc.homedir

/-- The `appSettingsHome` getter. -/
def appSettingsHome (e : SvcEnv) : String := pathJoin [userDataPath e, "User"]

/-- The `appSettingsPath` getter. -/
def appSettingsPath (e : SvcEnv) : String := pathJoin [appSettingsHome e, "settings.json"]

/-- The `appKeybindingsPath` getter. -/
def appKeybindingsPath (e : SvcEnv) : String := pathJoin [appSettingsHome e, "keybindings.json"]

/-- The `backupHome` getter. -/
def backupHome (e : SvcEnv) : String := pathJoin [userDataPath e, "Backups"]

/-- The `backupWorkspacesPath` getter. -/
def backupWorkspacesPath (e : SvcEnv) : String := pathJoin [backupHome e, "workspaces.json"]

/-- The `workspacesHome` getter. -/
def workspacesHome (e : SvcEnv) : String := pathJoin [userDataPath e, "Workspaces"]

/-- The `isBuilt` getter (`!process.env['VSCODE_DEV']`). -/
def isBuilt (e : SvcEnv) : Bool := !(strTruthy (envStr e.proc "VSCODE_DEV"))

/-- The `extensionsPath` getter: resolved `extensions-dir` argument, else
the `VSCODE_EXTENSIONS` environment value, else
`{userHome}/{dataFolderName}/extensions`. -/
def extensionsPath (e : SvcEnv) : String :=
  jsOrStr (parsePathArg e.args.extensionsDir e.proc)
    (jsOrStr (envStr e.proc "VSCODE_EXTENSIONS")
      (pathJoin [userHome e, e.product.dataFolderName, "extensions"]))

/-- The `nodeCachedDataDir` getter: only defined in built mode. -/
def nodeCachedDataDir (e : SvcEnv) : Option String :=
  if isBuilt e then some (pathJoin [userDataPath e, "CachedData", e.product.commit]) else none

/-- Shallow embedding of `getIPCHandle`: platform dispatch between the
named-pipe and socket-file variants. -/
def getIPCHandle (e : SvcEnv) (userDataPath type : String) : String :=
  if e.proc.platform = "win32" then getWin32IPCHandle e.sha256hex e.pkg e.product e.proc type
  else getNixIPCHandle e.pkg e.proc userDataPath type

/-- The `mainIPCHandle` getter. -/
def mainIPCHandle (e : SvcEnv) : String := getIPCHandle e (userDataPath e) "main"

/-- The `sharedIPCHandle` getter. -/
def sharedIPCHandle (e : SvcEnv) : String := getIPCHandle e (userDataPath e) "shared"

/-- Path of the machine identity file, `{userDataPath}/machineid`. -/
def machineIdPath (e : SvcEnv) : String := pathJoin [userDataPath e, "machineid"]

/-! ## Filesystem model and machine identity -/

/-- Filesystem state: the stored files as an association list from path
to contents, and the set of paths where a write raises (permission or
I/O error).  A read fails exactly when the file is missing; the other
read-failure causes the spec lists (permission, I/O) take the same
`catch` branch in the source and are observationally identical. -/
structure FSState where
  files : List (String × String)
  badWrite : List String
deriving Repr, DecidableEq

deriving instance DecidableEq for Except

/-- Read a file (`fs.readFileSync` wrapped in `try`). -/
def fsRead (fs : FSState) (p : String) : Except Unit String :=
  match fs.files.find? (fun kv => decide (kv.1 = p)) with
  | some kv => Except.ok kv.2
  | none => Except.error ()

/-- Write a file (`fs.writeFileSync` wrapped in `try`): fails on the
`badWrite` paths, else stores the contents. -/
def fsWrite (fs : FSState) (p c : String) : Except Unit FSState :=
  if fs.badWrite.contains p then Except.error ()
  else Except.ok ⟨(p, c) :: fs.files.filter (fun kv => !(decide (kv.1 = p))), fs.badWrite⟩

/-- Delete a file (used only to state the two-run claims). -/
def fsRemove (fs : FSState) (p : String) : FSState :=
  ⟨fs.files.filter (fun kv => !(decide (kv.1 = p))), fs.badWrite⟩

/-- Outcome of the machine-identity read-or-create step: the in-memory
`machineUUID`, the filesystem after the step, and whether the non-fatal
`console.warn` was emitted. -/
structure MachineIdResult where
  machineUUID : String
  fs : FSState
  warned : Bool
deriving Repr, DecidableEq

/-- Shallow embedding of the `EnvironmentService` constructor body: read
`{userDataPath}/machineid`; on read failure adopt the freshly generated
token (`generateUuid()`, external, passed as `freshUuid`) and attempt to
persist it, only warning when the write fails.  Total: no branch
propagates an error. -/
def machineIdGetOrCreate (fs : FSState) (userDataPath freshUuid : String) : MachineIdResult :=
  let machineIdPath := pathJoin [userDataPath, "machineid"]
  match fsRead fs machineIdPath with
  | Except.ok contents => ⟨contents, fs, false⟩
  | Except.error _ =>
    match fsWrite fs machineIdPath freshUuid with
    | Except.ok fs2 => ⟨freshUuid, fs2, false⟩
    | Except.error _ => ⟨freshUuid, fs, true⟩

/-- Service construction: the only constructor side effect is the
machine-identity read-or-create against the resolved user data path. -/
def constructService (e : SvcEnv) (fs : FSState) (freshUuid : String) : MachineIdResult :=
  machineIdGetOrCreate fs (userDataPath e) freshUuid

/-! ## Memoized property access -/

/-- Modelled from the spec: the `memoize` decorator
(vs/base/common/decorators, not under src/) caches a getter's result on
first access and returns the cached value on every later access without
re-deriving it.  `cache` is the per-property once-cell (`none` before the
first access); the pair returned is (observed value, updated cell). -/
def memoAccess {α : Type} (compute : NodeProcess → α) (proc : NodeProcess)
    (cache : Option α) : α × Option α :=
  match cache with
  | some v => (v, some v)
  | none =>
    let v := compute proc
    (v, some v)

/-! ## Sample concrete inputs (used by witnesses and counterexamples) -/

/-- Sample package metadata. -/
def samplePkg : Pkg := ⟨"code-oss-dev", "1.19.0"⟩

/-- Sample product metadata. -/
def sampleProduct : Product := ⟨"Code - OSS", "dev", "code-oss", "c0ffee", ".vscode-oss"⟩

/-- Sample arguments selecting an explicit absolute user data directory. -/
def sampleArgs : ParsedArgs := { userDataDir := some "/data" }

/-- Sample Linux process with home directory `/home/a`. -/
def sampleProcA : NodeProcess := ⟨"linux", "/cwd", [], "/home/a"⟩

/-- Sample Linux process identical to `sampleProcA` except for the home
directory. -/
def sampleProcB : NodeProcess := ⟨"linux", "/cwd", [], "/home/b"⟩

/-- Sample Windows process with a username variable. -/
def sampleProcWin : NodeProcess := ⟨"win32", "/cwd", [("USERNAME", "alice")], "/home/a"⟩

/-- Sample hash collaborator with a fixed digest. -/
def sampleSha (s : String) : String := if s = "alice" then "abcdef123456" else "0123456789ab"

/-- Sample default-user-data-path collaborator. -/
def sampleDefaultPath (platform : String) : String :=
  if platform = "win32" then "/appdata/Code" else "/home/a/.config/Code"

/-- Sample service environment on Linux, home `/home/a`. -/
def sampleEnvA : SvcEnv := ⟨sampleArgs, sampleProcA, samplePkg, sampleProduct, sampleDefaultPath, sampleSha⟩

/-- Sample service environment on Linux, home `/home/b`. -/
def sampleEnvB : SvcEnv := ⟨sampleArgs, sampleProcB, samplePkg, sampleProduct, sampleDefaultPath, sampleSha⟩

/-- Sample service environment on Windows. -/
def sampleEnvWin : SvcEnv := ⟨sampleArgs, sampleProcWin, samplePkg, sampleProduct, sampleDefaultPath, sampleSha⟩

example : userDataPath sampleEnvA = "/data" := by decide
example : extensionsPath sampleEnvA = "/home/a/.vscode-oss/extensions" := by decide
example : mainIPCHandle sampleEnvA = "/data/1.19.0-main.sock" := by decide
example : mainIPCHandle sampleEnvWin = "\\\\.\\pipe\\code-oss-abcdef-1.19.0-main-sock" := by decide
example : machineIdGetOrCreate ⟨[], []⟩ "/data" "uuid-1" = ⟨"uuid-1", ⟨[("/data/machineid", "uuid-1")], []⟩, false⟩ := by decide
example : machineIdGetOrCreate ⟨[], ["/data/machineid"]⟩ "/data" "uuid-1" = ⟨"uuid-1", ⟨[], ["/data/machineid"]⟩, true⟩ := by decide

/-! ## Shared lemmas -/

/-- Boolean conditional with a `false` alternative is conjunction. -/
theorem if_else_false_eq_and (c x : Bool) : (if c = true then x else false) = (c && x) := by
  cases c <;> simp

/-- A falsy (absent or empty) path argument resolves to `undefined`. -/
theorem parsePathArg_falsy (arg : Option String) (proc : NodeProcess)
    (h : strTruthy arg = false) : parsePathArg arg proc = none := by
  cases arg with
  | none => rfl
  | some a =>
    simp only [strTruthy, Bool.not_eq_false'] at h
    simp [parsePathArg, h]

/-! ## C1, C2, C10: debug-port negotiation -/

/-- C1 counterexample: the attach argument `"50.5"` does not parse as an
integer, yet the program adopts port `50.5` (the exact value `101/2`,
not an integer and not the default `9229`) — in non-build mode instead
of the claimed default, and in build mode instead of the claimed absent
port.  This refutes the claim's fallback conjunct as stated. -/
theorem claim1_debug_port_counterexample :
    (parseDebugPort (some "50.5") none 9229 false none).port = some (JSNum.num 505 1)
    ∧ (parseDebugPort (some "50.5") none 9229 true none).port = some (JSNum.num 505 1)
    ∧ jsFiniteVal 505 1 = 101 / 2
    ∧ (∀ n : ℤ, jsFiniteVal 505 1 ≠ (n : ℚ))
    ∧ jsFiniteVal 505 1 ≠ 9229 := by
  refine ⟨by decide, by decide, by norm_num [jsFiniteVal], ?_, by norm_num [jsFiniteVal]⟩
  intro n h
  rw [jsFiniteVal] at h
  have h2 : (505 : ℚ) = (n : ℚ) * 10 := by
    field_simp at h
    linarith
  have h3 : (505 : ℤ) = n * 10 := by exact_mod_cast h2
  omega

/-- C1 amended: the effective debug-port source is the break-specific
argument when it is present (truthy), else the plain attach argument;
when the effective source's numeric value is NaN or zero — in
particular when both arguments are absent or the string is not numeric
— the port falls back to the default outside build mode and to absent
in build mode; and the four spec vectors hold. -/
theorem claim1_debug_port_amended :
    (∀ a b : Option String, ∀ d : Int, ∀ i : Bool, ∀ id : Option String,
      strTruthy b = true → parseDebugPort a b d i id = parseDebugPort none b d i id)
    ∧ (∀ a b : Option String, ∀ d : Int, ∀ i : Bool, ∀ id : Option String,
      strTruthy b = false → parseDebugPort a b d i id = parseDebugPort a none d i id)
    ∧ (∀ a b : Option String, ∀ d : Int, ∀ i : Bool, ∀ id : Option String,
      numTruthy (jsNumber (if strTruthy b then b else a)) = false →
      (parseDebugPort a b d i id).port = if i then none else some (JSNum.num d 0))
    ∧ parseDebugPort (some "5000") none 9229 false none = ⟨some (JSNum.num 5000 0), false, none⟩
    ∧ parseDebugPort none (some "5000") 9229 false none = ⟨some (JSNum.num 5000 0), true, none⟩
    ∧ parseDebugPort none none 9229 false none = ⟨some (JSNum.num 9229 0), false, none⟩
    ∧ parseDebugPort none none 9229 true none = ⟨none, false, none⟩ := by
  refine ⟨?_, ?_, ?_, by decide, by decide, by decide, by decide⟩
  · intro a b d i id h
    simp [parseDebugPort, h]
  · intro a b d i id h
    have hn : strTruthy (none : Option String) = false := rfl
    simp [parseDebugPort, h, hn]
  · intro a b d i id h
    simp [parseDebugPort, h]

/-- Witness for C1-amended at concrete inputs: a truthy break argument
makes the attach argument irrelevant, and a non-numeric attach argument
falls back to the default port outside build mode. -/
theorem claim1_debug_port_amended_witness :
    parseDebugPort (some "1") (some "2") 5870 false none
      = parseDebugPort none (some "2") 5870 false none
    ∧ (parseDebugPort (some "x") none 5870 false none).port = some (JSNum.num 5870 0) :=
  ⟨claim1_debug_port_amended.1 (some "1") (some "2") 5870 false none (by decide),
   by simpa using claim1_debug_port_amended.2.2.1 (some "x") none 5870 false none (by decide)⟩

/-- C2 counterexample: with the plain attach argument `"5000"` and the
break-specific argument supplied as the empty string, a port is resolved
(`some 5000`, non-absent) and the break-specific argument is non-absent,
yet the break flag is `false` — the claim's "break true iff port
resolved and break argument non-absent" fails as stated. -/
theorem claim2_break_flag_counterexample :
    (parseDebugPort (some "5000") (some "") 9229 false none).port.isSome = true
    ∧ (some "" : Option String).isSome = true
    ∧ (parseDebugPort (some "5000") (some "") 9229 false none).brk = false := by
  decide

/-- C2 amended: the break flag is true iff the resolved port is truthy
(a nonzero integer) and the break-specific argument is truthy (supplied
and non-empty); when only the plain attach argument is given the flag is
false. -/
theorem claim2_break_flag_amended :
    ∀ a b : Option String, ∀ d : Int, ∀ i : Bool, ∀ id : Option String,
    (parseDebugPort a b d i id).brk
      = (numTruthy (parseDebugPort a b d i id).port && strTruthy b) := by
  intro a b d i id
  unfold parseDebugPort
  dsimp only
  exact if_else_false_eq_and _ _

/-- C10: an effective debug-port string of `"0"` is treated exactly like
an unparsable or absent argument — the port becomes the default outside
build mode and absent in build mode, never the integer `0`; in
particular `"0"` as the break-specific argument in build mode yields an
absent port with break false. -/
theorem claim10_zero_port :
    (∀ a b : Option String, ∀ d : Int, ∀ i : Bool, ∀ id : Option String,
      (if strTruthy b then b else a) = some "0" →
      (parseDebugPort a b d i id).port = if i then none else some (JSNum.num d 0))
    ∧ (∀ a : Option String, ∀ d : Int, ∀ id : Option String,
      parseDebugPort a (some "0") d true id = ⟨none, false, id⟩) := by
  constructor
  · intro a b d i id h
    have h0 : numTruthy (jsNumber (some "0")) = false := by decide
    simp [parseDebugPort, h, h0]
  · intro a d id
    have h1 : strTruthy (some "0") = true := by decide
    have h0 : numTruthy (jsNumber (some "0")) = false := by decide
    have hn : numTruthy (none : Option JSNum) = false := rfl
    simp [parseDebugPort, h1, h0, hn]

/-- Witness for C10 at concrete inputs: `"0"` as break argument gives
the default port outside build mode and an absent port in build mode. -/
theorem claim10_zero_port_witness :
    (parseDebugPort none (some "0") 9229 false none).port = some (JSNum.num 9229 0)
    ∧ parseDebugPort none (some "0") 9229 true none = ⟨none, false, none⟩ :=
  ⟨by simpa using claim10_zero_port.1 none (some "0") 9229 false none (by decide),
   claim10_zero_port.2 none 9229 none⟩

/-! ## Path-resolution lemmas -/

/-- A string with a prepended slash is non-empty. -/
theorem strIsEmpty_slash_append (s : String) : strIsEmpty ("/" ++ s) = false := by
  cases s with
  | mk data => rfl

/-- The resolve step never returns the empty string. -/
theorem resolveCombined_ne_empty (c : String) : strIsEmpty (resolveCombined c) = false := by
  simp only [resolveCombined]
  by_cases h1 : startsWithSlash c = true
  · simp [h1, strIsEmpty_slash_append]
  · rw [if_neg h1]
    split
    · rfl
    · next h2 => simpa using h2

/-- Single-argument resolve never returns the empty string. -/
theorem pathResolve1_ne_empty (cwd arg : String) : strIsEmpty (pathResolve1 cwd arg) = false :=
  resolveCombined_ne_empty _

/-- Two-argument resolve never returns the empty string. -/
theorem pathResolve2_ne_empty (cwd base arg : String) :
    strIsEmpty (pathResolve2 cwd base arg) = false := by
  unfold pathResolve2
  by_cases h : startsWithSlash arg = true
  · simp [h, resolveCombined_ne_empty]
  · simp [h, pathResolve1_ne_empty]

/-- An already-absolute argument (the source's `normalize(arg) ==
resolve(arg)` test) is returned resolved against the plain cwd. -/
theorem parsePathArg_abs (proc : NodeProcess) (a : String) (h1 : strIsEmpty a = false)
    (h2 : pathNormalize a = pathResolve1 proc.cwd a) :
    parsePathArg (some a) proc = some (pathResolve1 proc.cwd a) := by
  simp [parsePathArg, h1, h2]

/-- A relative argument (failing the source's absoluteness test) is
resolved against the `VSCODE_CWD` override when truthy, else the cwd. -/
theorem parsePathArg_rel (proc : NodeProcess) (a : String) (h1 : strIsEmpty a = false)
    (h2 : pathNormalize a ≠ pathResolve1 proc.cwd a) :
    parsePathArg (some a) proc
      = some (pathResolve2 proc.cwd (jsOrStr (envStr proc "VSCODE_CWD") proc.cwd) a) := by
  simp [parsePathArg, h1, h2]

/-- A truthy path argument always resolves to a non-empty path. -/
theorem parsePathArg_isSome (proc : NodeProcess) (a : String) (h1 : strIsEmpty a = false) :
    ∃ r, parsePathArg (some a) proc = some r ∧ strIsEmpty r = false := by
  by_cases h2 : pathNormalize a = pathResolve1 proc.cwd a
  · exact ⟨_, parsePathArg_abs proc a h1 h2, pathResolve1_ne_empty _ _⟩
  · exact ⟨_, parsePathArg_rel proc a h1 h2, pathResolve2_ne_empty _ _ _⟩

/-! ## C4: parsePathArg -/

/-- C4: an absent (falsy) path argument yields absent; an argument whose
normalization equals its resolution against the cwd is returned so
resolved, with the `VSCODE_CWD` override never consulted; any other
non-empty argument is resolved against the override when truthy, else
against the plain cwd.  The function is total by construction. -/
theorem claim4_parse_path_arg :
    (∀ proc : NodeProcess, ∀ arg : Option String,
      strTruthy arg = false → parsePathArg arg proc = none)
    ∧ (∀ proc : NodeProcess, ∀ a : String, strIsEmpty a = false →
      pathNormalize a = pathResolve1 proc.cwd a →
      parsePathArg (some a) proc = some (pathResolve1 proc.cwd a))
    ∧ (∀ proc proc' : NodeProcess, ∀ a : String, proc.cwd = proc'.cwd →
      strIsEmpty a = false → pathNormalize a = pathResolve1 proc.cwd a →
      parsePathArg (some a) proc = parsePathArg (some a) proc')
    ∧ (∀ proc : NodeProcess, ∀ a : String, strIsEmpty a = false →
      pathNormalize a ≠ pathResolve1 proc.cwd a →
      parsePathArg (some a) proc
        = some (pathResolve2 proc.cwd (jsOrStr (envStr proc "VSCODE_CWD") proc.cwd) a)) := by
  refine ⟨fun proc arg h => parsePathArg_falsy arg proc h, parsePathArg_abs, ?_, parsePathArg_rel⟩
  intro proc proc' a hcwd h1 h2
  rw [parsePathArg_abs proc a h1 h2, parsePathArg_abs proc' a h1 (by rw [← hcwd]; exact h2),
    hcwd]

/-- Sample Linux process with a `VSCODE_CWD` working-directory override. -/
def sampleProcOverride : NodeProcess := ⟨"linux", "/cwd", [("VSCODE_CWD", "/orig")], "/home/a"⟩

/-- Witness for C4 at concrete inputs: empty argument, already-absolute
argument, and relative argument under a `VSCODE_CWD` override. -/
theorem claim4_parse_path_arg_witness :
    parsePathArg (some "") sampleProcA = none
    ∧ parsePathArg (some "/abs") sampleProcA = some "/abs"
    ∧ parsePathArg (some "rel") sampleProcOverride = some "/orig/rel" :=
  ⟨claim4_parse_path_arg.1 sampleProcA (some "") (by decide),
   by rw [claim4_parse_path_arg.2.1 sampleProcA "/abs" (by decide) (by decide)]; decide,
   by rw [claim4_parse_path_arg.2.2.2 sampleProcOverride "rel" (by decide) (by decide)]; decide⟩

/-! ## C5: parseUserDataDir -/

/-- C5: a truthy `user-data-dir` argument wins and is returned resolved
(`parsePathArg` yields it); otherwise the platform default user-state
root is resolved against the cwd; and the result is never absent or
empty. -/
theorem claim5_user_data_dir :
    (∀ args : ParsedArgs, ∀ proc : NodeProcess, ∀ f : String → String,
      strTruthy args.userDataDir = true →
      ∃ r, parsePathArg args.userDataDir proc = some r ∧ parseUserDataDir args proc f = r)
    ∧ (∀ args : ParsedArgs, ∀ proc : NodeProcess, ∀ f : String → String,
      strTruthy args.userDataDir = false →
      parseUserDataDir args proc f = pathResolve1 proc.cwd (f proc.platform))
    ∧ (∀ args : ParsedArgs, ∀ proc : NodeProcess, ∀ f : String → String,
      strIsEmpty (parseUserDataDir args proc f) = false) := by
  refine ⟨?_, ?_, ?_⟩
  · intro args proc f h
    cases harg : args.userDataDir with
    | none => rw [harg] at h; simp [strTruthy] at h
    | some a =>
      rw [harg] at h
      simp only [strTruthy, Bool.not_eq_true'] at h
      obtain ⟨r, hr, hne⟩ := parsePathArg_isSome proc a h
      refine ⟨r, hr, ?_⟩
      unfold parseUserDataDir
      rw [harg, hr]
      simp [jsOrStr, hne]
  · intro args proc f h
    unfold parseUserDataDir
    rw [parsePathArg_falsy _ _ h]
    rfl
  · intro args proc f
    cases harg : args.userDataDir with
    | none =>
      unfold parseUserDataDir
      rw [harg]
      exact pathResolve1_ne_empty _ _
    | some a =>
      by_cases he : strIsEmpty a = true
      · have hf : strTruthy (some a) = false := by simp [strTruthy, he]
        unfold parseUserDataDir
        rw [harg, parsePathArg_falsy _ _ hf]
        exact pathResolve1_ne_empty _ _
      · have he' : strIsEmpty a = false := by simpa using he
        obtain ⟨r, hr, hne⟩ := parsePathArg_isSome proc a he'
        unfold parseUserDataDir
        rw [harg, hr]
        simp [jsOrStr, hne]

/-- Witness for C5 at concrete inputs: an explicit absolute
`user-data-dir` wins; without the argument the platform default is
resolved. -/
theorem claim5_user_data_dir_witness :
    parseUserDataDir sampleArgs sampleProcA sampleDefaultPath = "/data"
    ∧ parseUserDataDir { } sampleProcA sampleDefaultPath = "/home/a/.config/Code" := by
  constructor
  · obtain ⟨r, hr, h2⟩ :=
      claim5_user_data_dir.1 sampleArgs sampleProcA sampleDefaultPath (by decide)
    have hr' : parsePathArg (some "/data") sampleProcA = some r := hr
    have heval : parsePathArg (some "/data") sampleProcA = some "/data" := by decide
    have hs : (some "/data" : Option String) = some r := by rw [← heval, hr']
    exact h2.trans (Option.some.inj hs).symm
  · have h := claim5_user_data_dir.2.1 { } sampleProcA sampleDefaultPath (by decide)
    rw [h]; decide

/-! ## More shared lemmas -/

/-- A falsy option falls through JS `||` to its fallback. -/
theorem jsOrStr_falsy (a : Option String) (b : String) (h : strTruthy a = false) :
    jsOrStr a b = b := by
  cases a with
  | none => rfl
  | some s =>
    simp only [strTruthy, Bool.not_eq_false'] at h
    simp [jsOrStr, h]

/-- The empty string is empty. -/
theorem strIsEmpty_nil : strIsEmpty "" = true := rfl

/-- Truncating a non-empty string to six characters is non-empty. -/
theorem strTake6_ne_empty (s : String) (hs : strIsEmpty s = false) :
    strIsEmpty (strTake s 6) = false := by
  unfold strTake strOfChars
  unfold strIsEmpty at *
  cases hd : s.data with
  | nil => rw [hd] at hs; simp at hs
  | cons c rest => simp

/-- Without a truthy `XDG_RUNTIME_DIR`, the socket file lives in the
user data directory. -/
theorem getNixIPCHandle_noXdg (pkg : Pkg) (proc : NodeProcess) (udp type : String)
    (h : strTruthy (envStr proc "XDG_RUNTIME_DIR") = false) :
    getNixIPCHandle pkg proc udp type
      = pathJoin [udp, pkg.version ++ "-" ++ type ++ ".sock"] := by
  cases hu : envStr proc "XDG_RUNTIME_DIR" with
  | none => simp [getNixIPCHandle, hu]
  | some x =>
    rw [hu] at h
    simp only [strTruthy, Bool.not_eq_false'] at h
    simp [getNixIPCHandle, hu, h]

/-! ## C6: IPC handle naming -/

/-- C6: `getIPCHandle` dispatches purely on the platform identifier — on
win32 it builds the named-pipe path with the user segment present
exactly when a truthy username hashes (externally) to a non-empty
digest truncated to six characters, and on every other platform it
places `{name}-{version}-{type}.sock` in a truthy `XDG_RUNTIME_DIR`,
else `{version}-{type}.sock` in the user data directory. -/
theorem claim6_ipc_handle :
    (∀ e : SvcEnv, ∀ udp type : String, e.proc.platform = "win32" →
      (∀ s, strIsEmpty (e.sha256hex s) = false) →
      getIPCHandle e udp type =
        "\\\\.\\pipe\\"
          ++ (e.product.applicationName
            ++ (match envStr e.proc "USERNAME" with
                | some u =>
                  if strIsEmpty u then "" else "-" ++ strTake (e.sha256hex u) 6
                | none => ""))
          ++ "-" ++ e.pkg.version ++ "-" ++ type ++ "-sock")
    ∧ (∀ e : SvcEnv, ∀ udp type x : String, e.proc.platform ≠ "win32" →
      envStr e.proc "XDG_RUNTIME_DIR" = some x → strIsEmpty x = false →
      getIPCHandle e udp type
        = pathJoin [x, e.pkg.name ++ "-" ++ e.pkg.version ++ "-" ++ type ++ ".sock"])
    ∧ (∀ e : SvcEnv, ∀ udp type : String, e.proc.platform ≠ "win32" →
      strTruthy (envStr e.proc "XDG_RUNTIME_DIR") = false →
      getIPCHandle e udp type = pathJoin [udp, e.pkg.version ++ "-" ++ type ++ ".sock"]) := by
  refine ⟨?_, ?_, ?_⟩
  · intro e udp type h hsha
    cases hu : envStr e.proc "USERNAME" with
    | none => simp [getIPCHandle, getWin32IPCHandle, getUniqueUserId, h, hu, strIsEmpty_nil]
    | some u =>
      by_cases hue : strIsEmpty u = true
      · simp [getIPCHandle, getWin32IPCHandle, getUniqueUserId, h, hu, hue, strIsEmpty_nil]
      · have h6 := strTake6_ne_empty (e.sha256hex u) (hsha u)
        simp [getIPCHandle, getWin32IPCHandle, getUniqueUserId, h, hu, hue, h6]
  · intro e udp type x h hx hxe
    simp [getIPCHandle, h, getNixIPCHandle, hx, hxe]
  · intro e udp type h hx
    unfold getIPCHandle
    rw [if_neg h]
    exact getNixIPCHandle_noXdg e.pkg e.proc udp type hx

/-- Witness for C6 at concrete inputs: the Windows pipe name with a
hashed username, and the socket file in the user data directory on
Linux without `XDG_RUNTIME_DIR`. -/
theorem claim6_ipc_handle_witness :
    getIPCHandle sampleEnvWin "/data" "main" = "\\\\.\\pipe\\code-oss-abcdef-1.19.0-main-sock"
    ∧ getIPCHandle sampleEnvA "/data" "main" = "/data/1.19.0-main.sock" := by
  constructor
  · have h := claim6_ipc_handle.1 sampleEnvWin "/data" "main" rfl
      (fun s => by
        have hv : strIsEmpty (sampleSha s) = false := by unfold sampleSha; split <;> rfl
        exact hv)
    rw [h]; decide
  · have h := claim6_ipc_handle.2.2 sampleEnvA "/data" "main" (by decide) (by decide)
    rw [h]; decide

/-! ## C3: derived state paths -/

/-- C3 counterexample: two service environments sharing the same
resolved user data directory but different home directories give
different default extensions paths, and the default extensions path is
a fixed segment joined onto the user home directory — so it is not a
fixed relative segment joined onto the user data directory, refuting
the claim for the extensions default. -/
theorem claim3_derived_paths_counterexample :
    userDataPath sampleEnvA = userDataPath sampleEnvB
    ∧ extensionsPath sampleEnvA ≠ extensionsPath sampleEnvB
    ∧ extensionsPath sampleEnvA
        = pathJoin [userHome sampleEnvA, sampleProduct.dataFolderName, "extensions"]
    ∧ userDataPath sampleEnvA = "/data"
    ∧ extensionsPath sampleEnvA = "/home/a/.vscode-oss/extensions" := by
  refine ⟨by decide, by decide, by decide, by decide, by decide⟩

/-- C3 amended: settings, keybindings, backups, workspaces, cached data
and the machine-identity file are fixed relative segments joined onto
the resolved user data directory (directly or via a derived directory);
the default extensions path (no truthy `extensions-dir` argument and no
truthy `VSCODE_EXTENSIONS` variable) is instead a fixed segment joined
onto the user home directory; the IPC socket file is joined onto the
user data directory only on non-Windows platforms without a truthy
`XDG_RUNTIME_DIR`. -/
theorem claim3_derived_paths_amended :
    ∀ e : SvcEnv,
    appSettingsHome e = pathJoin [userDataPath e, "User"]
    ∧ appSettingsPath e = pathJoin [appSettingsHome e, "settings.json"]
    ∧ appKeybindingsPath e = pathJoin [appSettingsHome e, "keybindings.json"]
    ∧ backupHome e = pathJoin [userDataPath e, "Backups"]
    ∧ backupWorkspacesPath e = pathJoin [backupHome e, "workspaces.json"]
    ∧ workspacesHome e = pathJoin [userDataPath e, "Workspaces"]
    ∧ machineIdPath e = pathJoin [userDataPath e, "machineid"]
    ∧ (isBuilt e = true →
        nodeCachedDataDir e = some (pathJoin [userDataPath e, "CachedData", e.product.commit]))
    ∧ (strTruthy e.args.extensionsDir = false →
        strTruthy (envStr e.proc "VSCODE_EXTENSIONS") = false →
        extensionsPath e = pathJoin [userHome e, e.product.dataFolderName, "extensions"])
    ∧ (e.proc.platform ≠ "win32" → strTruthy (envStr e.proc "XDG_RUNTIME_DIR") = false →
        mainIPCHandle e = pathJoin [userDataPath e, e.pkg.version ++ "-" ++ "main" ++ ".sock"]) := by
  intro e
  refine ⟨rfl, rfl, rfl, rfl, rfl, rfl, rfl, ?_, ?_, ?_⟩
  · intro h; simp [nodeCachedDataDir, h]
  · intro h1 h2
    unfold extensionsPath
    rw [parsePathArg_falsy _ _ h1]
    exact jsOrStr_falsy _ _ h2
  · intro h1 h2
    unfold mainIPCHandle getIPCHandle
    rw [if_neg h1]
    exact getNixIPCHandle_noXdg e.pkg e.proc (userDataPath e) "main" h2

/-- Witness for C3-amended at concrete inputs. -/
theorem claim3_derived_paths_amended_witness :
    appSettingsHome sampleEnvA = "/data/User"
    ∧ nodeCachedDataDir sampleEnvA = some "/data/CachedData/c0ffee"
    ∧ extensionsPath sampleEnvA = "/home/a/.vscode-oss/extensions"
    ∧ mainIPCHandle sampleEnvA = "/data/1.19.0-main.sock" := by
  have h := claim3_derived_paths_amended sampleEnvA
  refine ⟨?_, ?_, ?_, ?_⟩
  · rw [h.1]; decide
  · rw [h.2.2.2.2.2.2.2.1 (by decide)]; decide
  · rw [h.2.2.2.2.2.2.2.2.1 (by decide) (by decide)]; decide
  · rw [h.2.2.2.2.2.2.2.2.2 (by decide) (by decide)]; decide

/-! ## Filesystem lemmas -/

/-- Reading back a successfully written file yields its contents. -/
theorem fsRead_fsWrite (fs fs2 : FSState) (p c : String)
    (h : fsWrite fs p c = Except.ok fs2) : fsRead fs2 p = Except.ok c := by
  unfold fsWrite at h
  split at h
  · simp at h
  · injection h with h2
    subst h2
    simp [fsRead, List.find?]

/-- Filtering out a key makes a later lookup of that key fail. -/
theorem find?_filter_ne (files : List (String × String)) (p : String) :
    (files.filter (fun kv => !(decide (kv.1 = p)))).find? (fun kv => decide (kv.1 = p))
      = none := by
  induction files with
  | nil => rfl
  | cons kv rest ih =>
    by_cases h : kv.1 = p
    · simp [List.filter, h, ih]
    · simp [List.filter, List.find?, h, ih]

/-- Reading a removed file fails. -/
theorem fsRead_fsRemove (fs : FSState) (p : String) :
    fsRead (fsRemove fs p) p = Except.error () := by
  unfold fsRead fsRemove
  dsimp only
  rw [find?_filter_ne]

/-- After deleting the identity file, read-or-create adopts the freshly
generated token. -/
theorem machineId_after_remove (fs : FSState) (udp u : String) :
    (machineIdGetOrCreate (fsRemove fs (pathJoin [udp, "machineid"])) udp u).machineUUID
      = u := by
  simp only [machineIdGetOrCreate]
  rw [fsRead_fsRemove]
  cases hw : fsWrite (fsRemove fs (pathJoin [udp, "machineid"])) (pathJoin [udp, "machineid"]) u with
  | ok f => simp [hw]
  | error err => simp [hw]

/-! ## C7: read failure is recovered, write failure only warns -/

/-- C7: when the machine-identity file cannot be read, the freshly
generated token becomes the in-memory `machineUUID` and a write of it to
`{userDataPath}/machineid` is attempted; a successful write persists
exactly that token without warning, while a failed write leaves the
filesystem unchanged, emits only the warning, and keeps the fresh token
in memory — construction always returns, it never propagates either
failure. -/
theorem claim7_machine_id_read_failure :
    ∀ e : SvcEnv, ∀ fs : FSState, ∀ uuid : String,
    fsRead fs (machineIdPath e) = Except.error () →
    (constructService e fs uuid).machineUUID = uuid
    ∧ (∀ fs2, fsWrite fs (machineIdPath e) uuid = Except.ok fs2 →
        constructService e fs uuid = ⟨uuid, fs2, false⟩)
    ∧ (fsWrite fs (machineIdPath e) uuid = Except.error () →
        constructService e fs uuid = ⟨uuid, fs, true⟩) := by
  intro e fs uuid hread
  unfold machineIdPath at hread
  unfold constructService
  simp only [machineIdGetOrCreate]
  rw [hread]
  refine ⟨?_, ?_, ?_⟩
  · cases hw : fsWrite fs (pathJoin [userDataPath e, "machineid"]) uuid with
    | ok fs2 => simp [hw]
    | error err => simp [hw]
  · intro fs2 hw
    unfold machineIdPath at hw
    simp [hw]
  · intro hw
    unfold machineIdPath at hw
    simp [hw]

/-- Witness for C7 at concrete inputs: a missing identity file with a
writable path, and one with a failing write. -/
theorem claim7_machine_id_read_failure_witness :
    (constructService sampleEnvA ⟨[], []⟩ "uuid-1").machineUUID = "uuid-1"
    ∧ constructService sampleEnvA ⟨[], ["/data/machineid"]⟩ "uuid-1"
        = ⟨"uuid-1", ⟨[], ["/data/machineid"]⟩, true⟩ :=
  ⟨(claim7_machine_id_read_failure sampleEnvA ⟨[], []⟩ "uuid-1" (by decide)).1,
   (claim7_machine_id_read_failure sampleEnvA ⟨[], ["/data/machineid"]⟩ "uuid-1"
      (by decide)).2.2 (by decide)⟩

/-! ## C8: identity stability across runs -/

/-- C8: running read-or-create twice against the same user data path
yields the same identity both times whenever the first run did not warn
(its read succeeded or its write persisted); if the identity file is
removed between the runs, the second run yields the freshly generated
token of the second run. -/
theorem claim8_machine_id_stability :
    ∀ fs : FSState, ∀ udp u1 u2 : String,
    ((machineIdGetOrCreate fs udp u1).warned = false →
      (machineIdGetOrCreate (machineIdGetOrCreate fs udp u1).fs udp u2).machineUUID
        = (machineIdGetOrCreate fs udp u1).machineUUID)
    ∧ (machineIdGetOrCreate
        (fsRemove (machineIdGetOrCreate fs udp u1).fs (pathJoin [udp, "machineid"]))
        udp u2).machineUUID = u2 := by
  intro fs udp u1 u2
  constructor
  · intro hw
    cases hr : fsRead fs (pathJoin [udp, "machineid"]) with
    | ok c =>
      have h1 : machineIdGetOrCreate fs udp u1 = ⟨c, fs, false⟩ := by
        simp only [machineIdGetOrCreate]; rw [hr]
      rw [h1]
      simp only [machineIdGetOrCreate]
      rw [hr]
    | error err =>
      cases hw2 : fsWrite fs (pathJoin [udp, "machineid"]) u1 with
      | ok fs2 =>
        have h1 : machineIdGetOrCreate fs udp u1 = ⟨u1, fs2, false⟩ := by
          simp only [machineIdGetOrCreate]; rw [hr, hw2]
        rw [h1]
        simp only [machineIdGetOrCreate]
        rw [fsRead_fsWrite fs fs2 _ u1 hw2]
      | error err2 =>
        have h1 : machineIdGetOrCreate fs udp u1 = ⟨u1, fs, true⟩ := by
          simp only [machineIdGetOrCreate]; rw [hr, hw2]
        rw [h1] at hw
        simp at hw
  · exact machineId_after_remove (machineIdGetOrCreate fs udp u1).fs udp u2

/-- Witness for C8 at concrete inputs: a fresh empty filesystem, a first
run that persists `u1`, a second run reading it back, and a third run
after deletion adopting `u2`. -/
theorem claim8_machine_id_stability_witness :
    (machineIdGetOrCreate (machineIdGetOrCreate ⟨[], []⟩ "/data" "u1").fs "/data" "u2").machineUUID
      = (machineIdGetOrCreate ⟨[], []⟩ "/data" "u1").machineUUID
    ∧ (machineIdGetOrCreate
        (fsRemove (machineIdGetOrCreate ⟨[], []⟩ "/data" "u1").fs (pathJoin ["/data", "machineid"]))
        "/data" "u2").machineUUID = "u2" :=
  ⟨(claim8_machine_id_stability ⟨[], []⟩ "/data" "u1" "u2").1 (by decide),
   (claim8_machine_id_stability ⟨[], []⟩ "/data" "u1" "u2").2⟩

/-! ## C9: memoized properties are referentially stable -/

/-- C9: a property access through the memoization cell computes the
value on first access and returns the cached value unchanged on every
later access, even when the ambient process facts have been mutated in
between; in particular the memoized `userDataPath` getter keeps its
first-access value under any later environment mutation.  Derived
properties are pure functions of the constructor-time inputs, so for a
fixed snapshot every access yields the same value. -/
theorem claim9_memoized_properties :
    ∀ (α : Type) (compute : NodeProcess → α) (proc proc2 : NodeProcess),
    (memoAccess compute proc none).1 = compute proc
    ∧ memoAccess compute proc2 (memoAccess compute proc none).2
        = ((memoAccess compute proc none).1, (memoAccess compute proc none).2)
    ∧ (∀ args : ParsedArgs, ∀ f : String → String,
        (memoAccess (fun p => parseUserDataDir args p f) proc2
          (memoAccess (fun p => parseUserDataDir args p f) proc none).2).1
          = parseUserDataDir args proc f) := by
  intro α compute proc proc2
  exact ⟨rfl, rfl, fun args f => rfl⟩
